import Mathlib

/-!
Verification of the tenant client cache in
`pkg/openstack/clients_factory.go` (cloud-provider-openstack).

Shallow embedding: Go pointers (`*gophercloud.ServiceClient`,
`*gophercloud.ProviderClient`) become `Option`-typed values; the external
capabilities (`os.Open`, `ReadConfig`, `client.NewOpenStackClient`,
`client.NewComputeV2`, `client.NewNetworkV2`, `client.NewLoadBalancerV2`,
`client.NewKeyManagerV1`) become an environment record of functions
returning `Except String _` (the Go `(value, error)` pairs).  The mutable map
`clients` is an association list threaded through `get` as explicit state.
`get` holds its mutex across the whole check-miss-construct-store sequence
(`c.m.Lock(); defer c.m.Unlock()`), so every concurrent execution of `get`
calls is equivalent to a serial execution of atomic calls; concurrency
claims are stated over iterated sequential calls.  To reason about how
often the external capabilities are invoked, the construction path also
returns a trace of events, one event per capability call.
-/

namespace Openstack

/-- Constant `CustomProjectAliasLabel` from clients_factory.go. -/
def CustomProjectAliasLabel : String := "shared.salt.x5.ru/project-alias"

/-- Constant `computeClientType` from clients_factory.go. -/
def computeClientType : String := "compute"

/-- Constant `networkClientType` from clients_factory.go. -/
def networkClientType : String := "network"

/-- Constant `loadbalancerClientType` from clients_factory.go. -/
def loadbalancerClientType : String := "loadbalancer"

/-- Constant `routesClientType` from clients_factory.go. -/
def routesClientType : String := "routes"

/-- Constant `secretClientType` from clients_factory.go. -/
def secretClientType : String := "secrets"

/-- Constant `configsPath` from clients_factory.go. -/
def configsPath : String := "/etc/config/"

/-- Go map lookup over an association list (`map[string]T` access),
returning `none` when the key is absent. -/
def mapLookup {β : Type} : List (String × β) → String → Option β
  | [], _ => none
  | (k, v) :: rest, key => if key = k then some v else mapLookup rest key

/-- Number of entries of an association list carrying a given key. -/
def keyCount {β : Type} : List (String × β) → String → Nat
  | [], _ => 0
  | (k, _) :: rest, key => (if key = k then 1 else 0) + keyCount rest key

/-- Model of `metav1.ObjectMeta`, restricted to the one field `get` reads:
`Labels map[string]string`, which can be `nil`. -/
structure ObjectMeta where
  labels : Option (List (String × String))

/-- The Go expression `meta.Labels[key]`: on a nil map or an absent key the zero value
`""` is returned. -/
def labelValue (labels : Option (List (String × String))) (key : String) : String :=
  match labels with
  | none => ""
  | some l =>
    match mapLookup l key with
    | none => ""
    | some v => v

/-- Model of `gophercloud.EndpointOpts`, restricted to the two fields set by
`getProjectTypedClient`. -/
structure EndpointOpts where
  region : String
  availability : String

/-- One invocation of an external capability during per-tenant client
construction: the configuration loader (`getProjectConfig`, i.e. `os.Open`
plus `ReadConfig`, recorded with the tenant alias), the provider-handle
builder (`client.NewOpenStackClient`), or a typed constructor (recorded
with the name of the constructor). -/
inductive Event where
  | loaderCall : String → Event
  | providerCall : Event
  | ctorCall : String → Event
deriving DecidableEq

/-- Number of configuration-loader invocations in a trace. -/
def loaderCount : List Event → Nat
  | [] => 0
  | Event.loaderCall _ :: rest => 1 + loaderCount rest
  | _ :: rest => loaderCount rest

/-- The external capabilities used by the factory, one field per function
the Go file calls.  `F` is the opaque open-file handle, `Cfg` the parsed
`Config`, `Provider` the provider handle, `Client` the service client.
`globalRegion` and `globalEndpointType` project `cloudConfig.Global.Region`
and `cloudConfig.Global.EndpointType`.  The typed constructors take the
possibly-nil provider pointer, as in Go. -/
structure Env (F Cfg Provider Client : Type) where
  osOpen : String → Except String F
  readConfig : F → Except String Cfg
  globalRegion : Cfg → String
  globalEndpointType : Cfg → String
  newOpenStackClient : Cfg → Except String Provider
  newComputeV2 : Option Provider → EndpointOpts → Except String Client
  newNetworkV2 : Option Provider → EndpointOpts → Except String Client
  newLoadBalancerV2 : Option Provider → EndpointOpts → Except String Client
  newKeyManagerV1 : Option Provider → EndpointOpts → Except String Client

/-- Model of `clientsFactory`: the client-kind selector, the default client and the
cache map.  The mutex is not part of the data: `get` holds it for its whole
body, so it is modelled by `get` being an atomic state transformer. -/
structure ClientsFactory (Client : Type) where
  clientType : String
  defaultClient : Option Client
  clients : List (String × Option Client)

/-- Function `newClientsFactory`. -/
def newClientsFactory {Client : Type} (clientType : String)
    (defaultClient : Option Client) : ClientsFactory Client :=
  ⟨clientType, defaultClient, []⟩

/-- Method `clientsFactory.clientKey`. -/
def clientKey {Client : Type} (c : ClientsFactory Client) (projectID : String) : String :=
  c.clientType ++ "/" ++ projectID

/-- Method `clientsFactory.configPath`. -/
def configPath (configName : String) : String :=
  configsPath ++ "/" ++ configName ++ ".conf"

/-- Method `clientsFactory.getProjectConfig`: open the per-tenant configuration
file and parse it, wrapping either failure in a message naming the path. -/
def getProjectConfig {F Cfg Provider Client : Type} (env : Env F Cfg Provider Client)
    (projectAlias : String) : Except String Cfg :=
  let fullConfigPath := configPath projectAlias
  match env.osOpen fullConfigPath with
  | Except.error e =>
    Except.error ("failed to open cloud provider configuration " ++ fullConfigPath ++ ": " ++ e)
  | Except.ok config =>
    match env.readConfig config with
    | Except.error e =>
      Except.error ("failed to read cloud provider configuration " ++ fullConfigPath ++ ": " ++ e)
    | Except.ok cloudConfig => Except.ok cloudConfig

/-- The `(*gophercloud.ProviderClient, bool, error)` triple returned by
`clientsFactory.getProjectProvider`. -/
structure ProviderResult (Provider : Type) where
  provider : Option Provider
  ok : Bool
  err : Option String

/-- Method `clientsFactory.getProjectProvider`: build a provider handle; on
failure return `(nil, false, err)`, on success `(provider, true, nil)`. -/
def getProjectProvider {F Cfg Provider Client : Type} (env : Env F Cfg Provider Client)
    (cloudConfig : Cfg) : ProviderResult Provider :=
  match env.newOpenStackClient cloudConfig with
  | Except.error e => ⟨none, false, some ("failed to create openstack client: " ++ e)⟩
  | Except.ok provider => ⟨some provider, true, none⟩

/-- Method `clientsFactory.getProjectTypedClient`, returning the Go pair
`(*gophercloud.ServiceClient, error)` as `Option Client × Option String`,
together with the trace of capability invocations it performed. -/
def getProjectTypedClient {F Cfg Provider Client : Type} (env : Env F Cfg Provider Client)
    (c : ClientsFactory Client) (projectAlias : String) :
    (Option Client × Option String) × List Event :=
  match getProjectConfig env projectAlias with
  | Except.error e =>
    ((none, some ("failed to read cloud provider configuration " ++ e)),
     [Event.loaderCall projectAlias])
  | Except.ok cloudConfig =>
    let pr := getProjectProvider env cloudConfig
    let ev := [Event.loaderCall projectAlias, Event.providerCall]
    match pr.err with
    | some e => ((none, some e), ev)
    | none =>
      if pr.ok then
        let epOpts : EndpointOpts :=
          ⟨env.globalRegion cloudConfig, env.globalEndpointType cloudConfig⟩
        if c.clientType = computeClientType then
          match env.newComputeV2 pr.provider epOpts with
          | Except.error e => ((none, some e), ev ++ [Event.ctorCall "NewComputeV2"])
          | Except.ok compute => ((some compute, none), ev ++ [Event.ctorCall "NewComputeV2"])
        else if c.clientType = networkClientType then
          match env.newNetworkV2 pr.provider epOpts with
          | Except.error e => ((none, some e), ev ++ [Event.ctorCall "NewNetworkV2"])
          | Except.ok network => ((some network, none), ev ++ [Event.ctorCall "NewNetworkV2"])
        else if c.clientType = loadbalancerClientType then
          match env.newLoadBalancerV2 pr.provider epOpts with
          | Except.error e => ((none, some e), ev ++ [Event.ctorCall "NewLoadBalancerV2"])
          | Except.ok lb => ((some lb, none), ev ++ [Event.ctorCall "NewLoadBalancerV2"])
        else if c.clientType = routesClientType then
          match env.newNetworkV2 pr.provider epOpts with
          | Except.error e => ((none, some e), ev ++ [Event.ctorCall "NewNetworkV2"])
          | Except.ok network => ((some network, none), ev ++ [Event.ctorCall "NewNetworkV2"])
        else if c.clientType = secretClientType then
          match env.newKeyManagerV1 pr.provider epOpts with
          | Except.error e => ((none, some e), ev ++ [Event.ctorCall "NewKeyManagerV1"])
          | Except.ok secret => ((some secret, none), ev ++ [Event.ctorCall "NewKeyManagerV1"])
        else
          ((none, some ("unknown client type " ++ c.clientType)), ev)
      else
        ((none, none), ev)

/-- Method `clientsFactory.get`: the whole body runs under the mutex of the factory, so
it is one atomic step on the state.  Returns the client handed to the
caller, the updated factory state, and the trace of capability calls. -/
def get {F Cfg Provider Client : Type} (env : Env F Cfg Provider Client)
    (c : ClientsFactory Client) (meta : ObjectMeta) :
    Option Client × ClientsFactory Client × List Event :=
  if meta.labels = none ∨ labelValue meta.labels CustomProjectAliasLabel = "" then
    (c.defaultClient, c, [])
  else
    let customProjectAlias := labelValue meta.labels CustomProjectAliasLabel
    match mapLookup c.clients (clientKey c customProjectAlias) with
    | some memoryClient => (memoryClient, c, [])
    | none =>
      let r := getProjectTypedClient env c customProjectAlias
      match r.1.2 with
      | some _ => (c.defaultClient, c, r.2)
      | none =>
        (r.1.1,
         { c with clients := (clientKey c customProjectAlias, r.1.1) :: c.clients },
         r.2)

/-- Runs `N` sequential `get` calls (the serialisation, justified by the mutex,
of `N` concurrent calls), returning the final state and the concatenated
trace. -/
def getN {F Cfg Provider Client : Type} (env : Env F Cfg Provider Client)
    (c : ClientsFactory Client) (meta : ObjectMeta) : Nat → ClientsFactory Client × List Event
  | 0 => (c, [])
  | Nat.succ n =>
    let r := get env c meta
    let rest := getN env r.2.1 meta n
    (rest.1, r.2.2 ++ rest.2)

/-- A concrete environment in which every capability succeeds; the four
typed constructors return the distinct clients 1–4. -/
def testEnv : Env Unit Unit Unit Nat :=
  ⟨fun _ => Except.ok (), fun _ => Except.ok (), fun _ => "r", fun _ => "e",
   fun _ => Except.ok (), fun _ _ => Except.ok 1, fun _ _ => Except.ok 2,
   fun _ _ => Except.ok 3, fun _ _ => Except.ok 4⟩

/-- A concrete environment in which opening the configuration file fails. -/
def failEnv : Env Unit Unit Unit Nat :=
  ⟨fun _ => Except.error "no such file", fun _ => Except.ok (), fun _ => "r", fun _ => "e",
   fun _ => Except.ok (), fun _ _ => Except.ok 1, fun _ _ => Except.ok 2,
   fun _ _ => Except.ok 3, fun _ _ => Except.ok 4⟩

/-- A fresh compute-kind factory whose default client is 0. -/
def testFactory : ClientsFactory Nat :=
  newClientsFactory computeClientType (some 0)

/-- A factory instantiated with an unsupported client-kind selector. -/
def unknownFactory : ClientsFactory Nat :=
  newClientsFactory "dns" (some 0)

/-- A compute-kind factory whose cache already holds a client for the
tenant alias `acme`. -/
def seededFactory : ClientsFactory Nat :=
  ⟨computeClientType, some 0, [("compute/acme", some 7)]⟩

/-- Metadata labelled with the tenant alias `acme`. -/
def testMeta : ObjectMeta :=
  ⟨some [(CustomProjectAliasLabel, "acme")]⟩

/-- On a nil label map every label reads as the empty string. -/
lemma labelValue_none (key : String) : labelValue none key = "" := rfl

/-- Default-scope characterisation of `get`: missing labels or an empty
alias label short-circuit to the default client, touching nothing. -/
lemma get_default_eq {F Cfg Provider Client : Type} (env : Env F Cfg Provider Client)
    (c : ClientsFactory Client) (meta : ObjectMeta)
    (h : meta.labels = none ∨ labelValue meta.labels CustomProjectAliasLabel = "") :
    get env c meta = (c.defaultClient, c, []) := by
  unfold get
  rw [if_pos h]

/-- With a non-empty alias the short-circuit condition of `get` is false. -/
lemma get_cond_false (meta : ObjectMeta) (a : String)
    (ha : labelValue meta.labels CustomProjectAliasLabel = a) (ha' : a ≠ "") :
    ¬(meta.labels = none ∨ labelValue meta.labels CustomProjectAliasLabel = "") := by
  rintro (h | h)
  · rw [h, labelValue_none] at ha
    exact ha' ha.symm
  · rw [ha] at h
    exact ha' h

/-- Cache-hit characterisation of `get`. -/
lemma get_hit_eq {F Cfg Provider Client : Type} (env : Env F Cfg Provider Client)
    (c : ClientsFactory Client) (meta : ObjectMeta) (a : String) (v : Option Client)
    (ha : labelValue meta.labels CustomProjectAliasLabel = a) (ha' : a ≠ "")
    (hv : mapLookup c.clients (clientKey c a) = some v) :
    get env c meta = (v, c, []) := by
  unfold get
  rw [if_neg (get_cond_false meta a ha ha')]
  simp only [ha, hv]

/-- Miss-and-fail characterisation of `get`: construction reported an
error, so the default client is returned and the state is untouched. -/
lemma get_miss_fail_eq {F Cfg Provider Client : Type} (env : Env F Cfg Provider Client)
    (c : ClientsFactory Client) (meta : ObjectMeta) (a : String) (e : String)
    (ha : labelValue meta.labels CustomProjectAliasLabel = a) (ha' : a ≠ "")
    (hmiss : mapLookup c.clients (clientKey c a) = none)
    (hfail : (getProjectTypedClient env c a).1.2 = some e) :
    get env c meta = (c.defaultClient, c, (getProjectTypedClient env c a).2) := by
  unfold get
  rw [if_neg (get_cond_false meta a ha ha')]
  simp only [ha, hmiss, hfail]

/-- Miss-and-succeed characterisation of `get`: the constructed client is
stored under the derived key and returned. -/
lemma get_miss_succ_eq {F Cfg Provider Client : Type} (env : Env F Cfg Provider Client)
    (c : ClientsFactory Client) (meta : ObjectMeta) (a : String)
    (ha : labelValue meta.labels CustomProjectAliasLabel = a) (ha' : a ≠ "")
    (hmiss : mapLookup c.clients (clientKey c a) = none)
    (hsucc : (getProjectTypedClient env c a).1.2 = none) :
    get env c meta = ((getProjectTypedClient env c a).1.1,
      { c with clients := (clientKey c a, (getProjectTypedClient env c a).1.1) :: c.clients },
      (getProjectTypedClient env c a).2) := by
  unfold get
  rw [if_neg (get_cond_false meta a ha ha')]
  simp only [ha, hmiss, hsucc]

/-- Exhaustive shapes of a construction attempt: a loader failure, a
provider failure, a typed-constructor failure, a typed-constructor
success, or the unknown-client-type failure.  In every shape the loader is
invoked exactly once, first; the `(nil, nil)` branch guarded by `!ok` does
not occur, because `getProjectProvider` pairs `ok = false` with an error. -/
lemma gptc_shape {F Cfg Provider Client : Type} (env : Env F Cfg Provider Client)
    (c : ClientsFactory Client) (a : String) :
    (∃ e, getProjectTypedClient env c a = ((none, some e), [Event.loaderCall a])) ∨
    (∃ e, getProjectTypedClient env c a = ((none, some e), [Event.loaderCall a, Event.providerCall])) ∨
    (∃ s e, getProjectTypedClient env c a =
      ((none, some e), [Event.loaderCall a, Event.providerCall, Event.ctorCall s])) ∨
    (∃ s cl, getProjectTypedClient env c a =
      ((some cl, none), [Event.loaderCall a, Event.providerCall, Event.ctorCall s])) := by
  unfold getProjectTypedClient
  cases hc : getProjectConfig env a with
  | error e => exact Or.inl ⟨_, rfl⟩
  | ok cfg =>
    cases hp : env.newOpenStackClient cfg with
    | error e =>
      simp only [getProjectProvider, hp]
      exact Or.inr (Or.inl ⟨_, rfl⟩)
    | ok p =>
      simp only [getProjectProvider, hp, if_true]
      by_cases h1 : c.clientType = computeClientType
      · simp only [h1, if_true]
        cases env.newComputeV2 (some p) ⟨env.globalRegion cfg, env.globalEndpointType cfg⟩ with
        | error e => exact Or.inr (Or.inr (Or.inl ⟨_, _, rfl⟩))
        | ok cl => exact Or.inr (Or.inr (Or.inr ⟨_, _, rfl⟩))
      · simp only [h1, if_false]
        by_cases h2 : c.clientType = networkClientType
        · simp only [h2, if_true]
          cases env.newNetworkV2 (some p) ⟨env.globalRegion cfg, env.globalEndpointType cfg⟩ with
          | error e => exact Or.inr (Or.inr (Or.inl ⟨_, _, rfl⟩))
          | ok cl => exact Or.inr (Or.inr (Or.inr ⟨_, _, rfl⟩))
        · simp only [h2, if_false]
          by_cases h3 : c.clientType = loadbalancerClientType
          · simp only [h3, if_true]
            cases env.newLoadBalancerV2 (some p) ⟨env.globalRegion cfg, env.globalEndpointType cfg⟩ with
            | error e => exact Or.inr (Or.inr (Or.inl ⟨_, _, rfl⟩))
            | ok cl => exact Or.inr (Or.inr (Or.inr ⟨_, _, rfl⟩))
          · simp only [h3, if_false]
            by_cases h4 : c.clientType = routesClientType
            · simp only [h4, if_true]
              cases env.newNetworkV2 (some p) ⟨env.globalRegion cfg, env.globalEndpointType cfg⟩ with
              | error e => exact Or.inr (Or.inr (Or.inl ⟨_, _, rfl⟩))
              | ok cl => exact Or.inr (Or.inr (Or.inr ⟨_, _, rfl⟩))
            · simp only [h4, if_false]
              by_cases h5 : c.clientType = secretClientType
              · simp only [h5, if_true]
                cases env.newKeyManagerV1 (some p) ⟨env.globalRegion cfg, env.globalEndpointType cfg⟩ with
                | error e => exact Or.inr (Or.inr (Or.inl ⟨_, _, rfl⟩))
                | ok cl => exact Or.inr (Or.inr (Or.inr ⟨_, _, rfl⟩))
              · simp only [h5, if_false]
                exact Or.inr (Or.inl ⟨_, rfl⟩)

/-- Every construction attempt invokes the configuration loader exactly
once. -/
lemma gptc_loaderCount {F Cfg Provider Client : Type} (env : Env F Cfg Provider Client)
    (c : ClientsFactory Client) (a : String) :
    loaderCount (getProjectTypedClient env c a).2 = 1 := by
  rcases gptc_shape env c a with ⟨e, h⟩ | ⟨e, h⟩ | ⟨s, e, h⟩ | ⟨s, cl, h⟩ <;>
    rw [h] <;> rfl

/-- A construction attempt that reports no error produced a client. -/
lemma gptc_err_none_isSome {F Cfg Provider Client : Type} (env : Env F Cfg Provider Client)
    (c : ClientsFactory Client) (a : String)
    (h : (getProjectTypedClient env c a).1.2 = none) :
    ((getProjectTypedClient env c a).1.1).isSome := by
  rcases gptc_shape env c a with ⟨e, hs⟩ | ⟨e, hs⟩ | ⟨s, e, hs⟩ | ⟨s, cl, hs⟩ <;>
    rw [hs] at h ⊢ <;> simp_all

/-- Method `getProjectProvider` returns `ok = false` only together with a
non-nil error. -/
lemma gpp_ok_false_err {F Cfg Provider Client : Type} (env : Env F Cfg Provider Client)
    (cfg : Cfg) (h : (getProjectProvider env cfg).ok = false) :
    ((getProjectProvider env cfg).err).isSome := by
  unfold getProjectProvider at h ⊢
  cases hE : env.newOpenStackClient cfg with
  | error e => rfl
  | ok p => rw [hE] at h; exact Bool.noConfusion h

/-- With an unsupported client-kind selector, a construction attempt whose
configuration load and provider construction succeed ends in the
unknown-client-type failure. -/
lemma gptc_unknown_eq {F Cfg Provider Client : Type} (env : Env F Cfg Provider Client)
    (c : ClientsFactory Client) (a : String) (cfg : Cfg) (p : Provider)
    (hct : c.clientType ∉ [computeClientType, networkClientType, loadbalancerClientType,
      routesClientType, secretClientType])
    (hcfg : getProjectConfig env a = Except.ok cfg)
    (hp : env.newOpenStackClient cfg = Except.ok p) :
    getProjectTypedClient env c a =
      ((none, some ("unknown client type " ++ c.clientType)),
       [Event.loaderCall a, Event.providerCall]) := by
  simp only [List.mem_cons, List.not_mem_nil, or_false, not_or] at hct
  obtain ⟨h1, h2, h3, h4, h5⟩ := hct
  unfold getProjectTypedClient
  rw [hcfg]
  simp only [getProjectProvider, hp, if_true, if_neg h1, if_neg h2, if_neg h3, if_neg h4,
    if_neg h5]

/-- With an unsupported client-kind selector every construction attempt
reports an error. -/
lemma gptc_unknown_err_isSome {F Cfg Provider Client : Type} (env : Env F Cfg Provider Client)
    (c : ClientsFactory Client) (a : String)
    (hct : c.clientType ∉ [computeClientType, networkClientType, loadbalancerClientType,
      routesClientType, secretClientType]) :
    ((getProjectTypedClient env c a).1.2).isSome := by
  simp only [List.mem_cons, List.not_mem_nil, or_false, not_or] at hct
  obtain ⟨h1, h2, h3, h4, h5⟩ := hct
  unfold getProjectTypedClient
  cases hc : getProjectConfig env a with
  | error e => rfl
  | ok cfg =>
    cases hp : env.newOpenStackClient cfg with
    | error e => simp only [getProjectProvider, hp]; rfl
    | ok p =>
      simp only [getProjectProvider, hp, if_true, if_neg h1, if_neg h2, if_neg h3, if_neg h4,
        if_neg h5]
      rfl

/-- The `routes` dispatch branch calls the same constructor
(`client.NewNetworkV2`) as the `network` branch: construction behaves
identically for the two kinds, whatever the rest of the factory state. -/
lemma gptc_routes_eq_network {F Cfg Provider Client : Type} (env : Env F Cfg Provider Client)
    (d d' : Option Client) (m m' : List (String × Option Client)) (a : String) :
    getProjectTypedClient env ⟨routesClientType, d, m⟩ a
      = getProjectTypedClient env ⟨networkClientType, d', m'⟩ a := by
  unfold getProjectTypedClient
  cases hc : getProjectConfig env a with
  | error e => rfl
  | ok cfg =>
    cases hp : env.newOpenStackClient cfg with
    | error e => simp only [getProjectProvider, hp]
    | ok p =>
      have e1 : routesClientType ≠ computeClientType := by decide
      have e2 : routesClientType ≠ networkClientType := by decide
      have e3 : routesClientType ≠ loadbalancerClientType := by decide
      have e4 : networkClientType ≠ computeClientType := by decide
      simp only [getProjectProvider, hp, if_true, if_neg e1, if_neg e2, if_neg e3, if_neg e4,
        if_pos rfl]

/-- Looking up the key just inserted finds the inserted value. -/
lemma mapLookup_cons_self {β : Type} (l : List (String × β)) (k : String) (v : β) :
    mapLookup ((k, v) :: l) k = some v := by
  simp [mapLookup]

/-- Inserting a fresh key preserves every existing binding. -/
lemma mapLookup_insert_preserve {β : Type} (l : List (String × β)) (key k : String)
    (v v' : β) (hnone : mapLookup l key = none) (h : mapLookup l k = some v) :
    mapLookup ((key, v') :: l) k = some v := by
  have hk : k ≠ key := by
    rintro rfl
    rw [hnone] at h
    cases h
  rw [show mapLookup ((key, v') :: l) k = if k = key then some v' else mapLookup l k from rfl,
    if_neg hk, h]

/-- A key that `mapLookup` misses occurs zero times in the list. -/
lemma keyCount_eq_zero {β : Type} (l : List (String × β)) (k : String)
    (h : mapLookup l k = none) : keyCount l k = 0 := by
  induction l with
  | nil => rfl
  | cons hd tl ih =>
    obtain ⟨k', v'⟩ := hd
    by_cases hk : k = k'
    · rw [show mapLookup ((k', v') :: tl) k = if k = k' then some v' else mapLookup tl k from rfl,
        if_pos hk] at h
      cases h
    · rw [show mapLookup ((k', v') :: tl) k = if k = k' then some v' else mapLookup tl k from rfl,
        if_neg hk] at h
      rw [show keyCount ((k', v') :: tl) k = (if k = k' then 1 else 0) + keyCount tl k from rfl,
        if_neg hk, ih h]

/-- A value found by `mapLookup` is bound in the list under that key. -/
lemma mapLookup_mem {β : Type} (l : List (String × β)) (k : String) (v : β)
    (h : mapLookup l k = some v) : (k, v) ∈ l := by
  induction l with
  | nil => cases h
  | cons hd tl ih =>
    obtain ⟨k', v'⟩ := hd
    by_cases hk : k = k'
    · rw [show mapLookup ((k', v') :: tl) k = if k = k' then some v' else mapLookup tl k from rfl,
        if_pos hk] at h
      cases h
      exact hk ▸ List.mem_cons_self _ _
    · rw [show mapLookup ((k', v') :: tl) k = if k = k' then some v' else mapLookup tl k from rfl,
        if_neg hk] at h
      exact List.mem_cons_of_mem _ (ih h)

/-- Once the alias is cached, any number of further `get` calls return
immediately: the state is unchanged and no capability is invoked. -/
lemma getN_stable {F Cfg Provider Client : Type} (env : Env F Cfg Provider Client)
    (c : ClientsFactory Client) (meta : ObjectMeta) (a : String) (v : Option Client)
    (ha : labelValue meta.labels CustomProjectAliasLabel = a) (ha' : a ≠ "")
    (hv : mapLookup c.clients (clientKey c a) = some v) :
    ∀ n, getN env c meta n = (c, []) := by
  intro n
  induction n with
  | zero => rfl
  | succ n ih =>
    show ((getN env (get env c meta).2.1 meta n).1,
      (get env c meta).2.2 ++ (getN env (get env c meta).2.1 meta n).2) = (c, [])
    rw [get_hit_eq env c meta a v ha ha' hv]
    dsimp only
    rw [ih]
    rfl

/-- One uncached, successful `get` call followed by any number of repeats:
the net effect is a single insertion and a single construction trace. -/
lemma getN_after_succ {F Cfg Provider Client : Type} (env : Env F Cfg Provider Client)
    (c : ClientsFactory Client) (meta : ObjectMeta) (a : String) (n : Nat)
    (ha : labelValue meta.labels CustomProjectAliasLabel = a) (ha' : a ≠ "")
    (hmiss : mapLookup c.clients (clientKey c a) = none)
    (hsucc : (getProjectTypedClient env c a).1.2 = none) :
    getN env c meta (n + 1)
      = ({ c with clients := (clientKey c a, (getProjectTypedClient env c a).1.1) :: c.clients },
         (getProjectTypedClient env c a).2) := by
  show ((getN env (get env c meta).2.1 meta n).1,
    (get env c meta).2.2 ++ (getN env (get env c meta).2.1 meta n).2) = _
  rw [get_miss_succ_eq env c meta a ha ha' hmiss hsucc]
  dsimp only
  rw [getN_stable env _ meta a ((getProjectTypedClient env c a).1.1) ha ha'
    (mapLookup_cons_self c.clients (clientKey c a) ((getProjectTypedClient env c a).1.1)) n]
  simp

/-- C2: for metadata with a nil label map, or with an absent or empty
tenant-alias label, `get` returns exactly the default client stored at
construction and leaves the cache map (the whole factory state) unchanged,
performing no capability call. -/
theorem claim_C2_default_scope {F Cfg Provider Client : Type} (env : Env F Cfg Provider Client)
    (c : ClientsFactory Client) (meta : ObjectMeta)
    (h : meta.labels = none ∨ labelValue meta.labels CustomProjectAliasLabel = "") :
    get env c meta = (c.defaultClient, c, []) :=
  get_default_eq env c meta h

theorem claim_C2_default_scope_witness :
    get testEnv testFactory ⟨none⟩ = (testFactory.defaultClient, testFactory, []) :=
  claim_C2_default_scope testEnv testFactory ⟨none⟩ (Or.inl rfl)

/-- C8: the configuration file path is the pure concatenation of the fixed
configs root `"/etc/config/"`, a `/`, the tenant alias, and `".conf"`. -/
theorem claim_C8_config_path (a : String) :
    configPath a = configsPath ++ "/" ++ a ++ ".conf" ∧ configsPath = "/etc/config/" :=
  ⟨rfl, rfl⟩

/-- C10: `getProjectTypedClient` never returns a nil client together with
a nil error — a nil error implies a constructed client — and
`getProjectProvider` returns `ok = false` only together with a non-nil
error, so the `!ok` branch returning `(nil, nil)` is unreachable. -/
theorem claim_C10_no_nil_nil {F Cfg Provider Client : Type} (env : Env F Cfg Provider Client)
    (c : ClientsFactory Client) :
    (∀ a, (getProjectTypedClient env c a).1.2 = none →
      ((getProjectTypedClient env c a).1.1).isSome)
    ∧ ∀ cfg, (getProjectProvider env cfg).ok = false →
      ((getProjectProvider env cfg).err).isSome :=
  ⟨fun a h => gptc_err_none_isSome env c a h, fun cfg h => gpp_ok_false_err env cfg h⟩

theorem claim_C10_no_nil_nil_witness :
    ((getProjectTypedClient testEnv testFactory "acme").1.1).isSome :=
  (claim_C10_no_nil_nil testEnv testFactory).1 "acme" rfl

/-- C6: the cache key is exactly `<client-kind>/<tenant-alias>` — for kind
`network` and alias `acme` the key `"network/acme"`, for kind `routes` the
distinct key `"routes/acme"` — while construction for kind `routes`
invokes the same underlying network constructor and so behaves identically
to kind `network`. -/
theorem claim_C6_cache_key_derivation {F Cfg Provider Client : Type}
    (env : Env F Cfg Provider Client) (d d' : Option Client)
    (m m' : List (String × Option Client)) (a : String) :
    clientKey (⟨networkClientType, d, m⟩ : ClientsFactory Client) "acme" = "network/acme"
    ∧ clientKey (⟨routesClientType, d, m⟩ : ClientsFactory Client) "acme" = "routes/acme"
    ∧ clientKey (⟨routesClientType, d, m⟩ : ClientsFactory Client) "acme"
        ≠ clientKey (⟨networkClientType, d, m⟩ : ClientsFactory Client) "acme"
    ∧ getProjectTypedClient env ⟨routesClientType, d, m⟩ a
        = getProjectTypedClient env ⟨networkClientType, d', m'⟩ a := by
  refine ⟨?_, ?_, ?_, gptc_routes_eq_network env d d' m m' a⟩
  · show (networkClientType ++ "/" ++ "acme" : String) = "network/acme"
    decide
  · show (routesClientType ++ "/" ++ "acme" : String) = "routes/acme"
    decide
  · show (routesClientType ++ "/" ++ "acme" : String) ≠ networkClientType ++ "/" ++ "acme"
    decide

theorem claim_C8_config_path_witness :
    configPath "acme" = configsPath ++ "/" ++ "acme" ++ ".conf" ∧ configsPath = "/etc/config/" :=
  claim_C8_config_path "acme"

theorem claim_C6_cache_key_derivation_witness :
    clientKey (⟨networkClientType, some 0, []⟩ : ClientsFactory Nat) "acme" = "network/acme"
    ∧ clientKey (⟨routesClientType, some 0, []⟩ : ClientsFactory Nat) "acme" = "routes/acme"
    ∧ clientKey (⟨routesClientType, some 0, []⟩ : ClientsFactory Nat) "acme"
        ≠ clientKey (⟨networkClientType, some 0, []⟩ : ClientsFactory Nat) "acme"
    ∧ getProjectTypedClient testEnv ⟨routesClientType, some 0, []⟩ "acme"
        = getProjectTypedClient testEnv ⟨networkClientType, some 0, []⟩ "acme" :=
  claim_C6_cache_key_derivation testEnv (some 0) (some 0) [] [] "acme"

/-- C1: `get` is total — its Go signature carries no error — and, given a
non-nil default client and a cache holding only non-nil clients (as every
cache reachable from `newClientsFactory` does), it never hands the caller
a nil pointer: the result is always some client, and the non-nil cache
invariant is preserved. -/
theorem claim_C1_total_no_nil {F Cfg Provider Client : Type} (env : Env F Cfg Provider Client)
    (c : ClientsFactory Client) (meta : ObjectMeta)
    (hd : (c.defaultClient).isSome)
    (hinv : ∀ p ∈ c.clients, (p.2).isSome) :
    ((get env c meta).1).isSome
    ∧ ∀ p ∈ ((get env c meta).2.1).clients, (p.2).isSome := by
  by_cases h0 : meta.labels = none ∨ labelValue meta.labels CustomProjectAliasLabel = ""
  · rw [get_default_eq env c meta h0]
    exact ⟨hd, hinv⟩
  · push_neg at h0
    cases hm : mapLookup c.clients (clientKey c (labelValue meta.labels CustomProjectAliasLabel)) with
    | some v =>
      rw [get_hit_eq env c meta (labelValue meta.labels CustomProjectAliasLabel) v rfl h0.2 hm]
      exact ⟨hinv _ (mapLookup_mem _ _ _ hm), hinv⟩
    | none =>
      cases hs : (getProjectTypedClient env c (labelValue meta.labels CustomProjectAliasLabel)).1.2 with
      | some e =>
        rw [get_miss_fail_eq env c meta (labelValue meta.labels CustomProjectAliasLabel) e rfl
          h0.2 hm hs]
        exact ⟨hd, hinv⟩
      | none =>
        rw [get_miss_succ_eq env c meta (labelValue meta.labels CustomProjectAliasLabel) rfl
          h0.2 hm hs]
        have hcl := gptc_err_none_isSome env c (labelValue meta.labels CustomProjectAliasLabel) hs
        refine ⟨hcl, ?_⟩
        intro p hp
        rcases List.mem_cons.mp hp with h | h
        · rw [h]
          exact hcl
        · exact hinv p h

theorem claim_C1_total_no_nil_witness :
    ((get testEnv testFactory testMeta).1).isSome
    ∧ ∀ p ∈ ((get testEnv testFactory testMeta).2.1).clients, (p.2).isSome :=
  claim_C1_total_no_nil testEnv testFactory testMeta rfl (by simp [testFactory, newClientsFactory])

/-- C4: when per-tenant construction fails, `get` returns the default
client and leaves the cache map unchanged (no entry is created for the
key), and — the state being unchanged — the next call with the same alias
reruns the whole construction, invoking the configuration loader once
again (once per failing call). -/
theorem claim_C4_failure_fallback {F Cfg Provider Client : Type} (env : Env F Cfg Provider Client)
    (c : ClientsFactory Client) (meta : ObjectMeta) (a : String) (e : String)
    (ha : labelValue meta.labels CustomProjectAliasLabel = a) (ha' : a ≠ "")
    (hmiss : mapLookup c.clients (clientKey c a) = none)
    (hfail : (getProjectTypedClient env c a).1.2 = some e) :
    get env c meta = (c.defaultClient, c, (getProjectTypedClient env c a).2)
    ∧ loaderCount (get env c meta).2.2 = 1
    ∧ get env ((get env c meta).2.1) meta = (c.defaultClient, c, (getProjectTypedClient env c a).2)
    ∧ loaderCount (get env ((get env c meta).2.1) meta).2.2 = 1 := by
  have h1 := get_miss_fail_eq env c meta a e ha ha' hmiss hfail
  rw [h1]
  dsimp only
  exact ⟨rfl, gptc_loaderCount env c a, h1, h1 ▸ gptc_loaderCount env c a⟩

theorem claim_C4_failure_fallback_witness :
    get failEnv testFactory testMeta
      = (testFactory.defaultClient, testFactory, (getProjectTypedClient failEnv testFactory "acme").2)
    ∧ loaderCount (get failEnv testFactory testMeta).2.2 = 1
    ∧ get failEnv ((get failEnv testFactory testMeta).2.1) testMeta
      = (testFactory.defaultClient, testFactory, (getProjectTypedClient failEnv testFactory "acme").2)
    ∧ loaderCount (get failEnv ((get failEnv testFactory testMeta).2.1) testMeta).2.2 = 1 :=
  claim_C4_failure_fallback failEnv testFactory testMeta "acme"
    (((getProjectTypedClient failEnv testFactory "acme").1.2).getD "")
    (by decide) (by decide) rfl rfl

/-- C5: after a `get` call constructs and stores a client for the alias, a
second call with the same metadata returns the very same stored client,
leaves the state unchanged, and performs no capability call at all — in
particular it invokes neither the configuration loader nor any
constructor. -/
theorem claim_C5_cache_hit_reuse {F Cfg Provider Client : Type} (env : Env F Cfg Provider Client)
    (c : ClientsFactory Client) (meta : ObjectMeta) (a : String)
    (ha : labelValue meta.labels CustomProjectAliasLabel = a) (ha' : a ≠ "")
    (hmiss : mapLookup c.clients (clientKey c a) = none)
    (hsucc : (getProjectTypedClient env c a).1.2 = none) :
    get env ((get env c meta).2.1) meta
      = ((get env c meta).1, (get env c meta).2.1, []) := by
  rw [get_miss_succ_eq env c meta a ha ha' hmiss hsucc]
  dsimp only
  exact get_hit_eq env _ meta a ((getProjectTypedClient env c a).1.1) ha ha'
    (mapLookup_cons_self c.clients (clientKey c a) ((getProjectTypedClient env c a).1.1))

theorem claim_C5_cache_hit_reuse_witness :
    get testEnv ((get testEnv testFactory testMeta).2.1) testMeta
      = ((get testEnv testFactory testMeta).1, (get testEnv testFactory testMeta).2.1, []) :=
  claim_C5_cache_hit_reuse testEnv testFactory testMeta "acme" (by decide) (by decide) rfl rfl

/-- C3: `get` holds its mutex across the whole check-miss-construct-store
sequence, so N concurrent calls serialise into N atomic calls; for every
N ≥ 1 such calls with the same previously uncached alias and a succeeding
construction, the configuration loader runs exactly once, the whole
combined trace is that of a single construction, and exactly one entry is
ever stored under the key — every caller sees either no entry or the one
fully constructed client. -/
theorem claim_C3_single_construction {F Cfg Provider Client : Type}
    (env : Env F Cfg Provider Client) (c : ClientsFactory Client) (meta : ObjectMeta)
    (a : String) (N : Nat)
    (ha : labelValue meta.labels CustomProjectAliasLabel = a) (ha' : a ≠ "")
    (hmiss : mapLookup c.clients (clientKey c a) = none)
    (hsucc : (getProjectTypedClient env c a).1.2 = none)
    (hN : 1 ≤ N) :
    (getN env c meta N).1.clients
      = (clientKey c a, (getProjectTypedClient env c a).1.1) :: c.clients
    ∧ (getN env c meta N).2 = (getProjectTypedClient env c a).2
    ∧ loaderCount (getN env c meta N).2 = 1
    ∧ keyCount (getN env c meta N).1.clients (clientKey c a) = 1 := by
  obtain ⟨n, rfl⟩ : ∃ n, N = n + 1 := ⟨N - 1, (Nat.succ_pred_eq_of_pos hN).symm⟩
  rw [getN_after_succ env c meta a n ha ha' hmiss hsucc]
  refine ⟨rfl, rfl, gptc_loaderCount env c a, ?_⟩
  rw [show keyCount ((clientKey c a, (getProjectTypedClient env c a).1.1) :: c.clients)
        (clientKey c a)
      = (if clientKey c a = clientKey c a then 1 else 0) + keyCount c.clients (clientKey c a)
      from rfl,
    if_pos rfl, keyCount_eq_zero c.clients (clientKey c a) hmiss]

theorem claim_C3_single_construction_witness :
    (getN testEnv testFactory testMeta 3).1.clients
      = (clientKey testFactory "acme", (getProjectTypedClient testEnv testFactory "acme").1.1)
          :: testFactory.clients
    ∧ (getN testEnv testFactory testMeta 3).2 = (getProjectTypedClient testEnv testFactory "acme").2
    ∧ loaderCount (getN testEnv testFactory testMeta 3).2 = 1
    ∧ keyCount (getN testEnv testFactory testMeta 3).1.clients (clientKey testFactory "acme") = 1 :=
  claim_C3_single_construction testEnv testFactory testMeta "acme" 3
    (by decide) (by decide) rfl rfl (by decide)

/-- C7: a factory instantiated with a client-kind selector outside the
five supported kinds can never construct a client — whenever the earlier
steps (configuration load, provider handle) succeed the attempt ends in
the `unknown client type` error — and `get` on such a factory always
returns the default client, its cache staying empty. -/
theorem claim_C7_unknown_client_type {F Cfg Provider Client : Type}
    (env : Env F Cfg Provider Client) (c : ClientsFactory Client)
    (hct : c.clientType ∉ [computeClientType, networkClientType, loadbalancerClientType,
      routesClientType, secretClientType]) :
    (∀ a cfg p, getProjectConfig env a = Except.ok cfg → env.newOpenStackClient cfg = Except.ok p →
      (getProjectTypedClient env c a).1
        = (none, some ("unknown client type " ++ c.clientType)))
    ∧ (c.clients = [] → ∀ meta, (get env c meta).1 = c.defaultClient
        ∧ (get env c meta).2.1 = c) := by
  constructor
  · intro a cfg p hcfg hp
    rw [gptc_unknown_eq env c a cfg p hct hcfg hp]
  · intro hcl meta
    by_cases h0 : meta.labels = none ∨ labelValue meta.labels CustomProjectAliasLabel = ""
    · rw [get_default_eq env c meta h0]
      exact ⟨rfl, rfl⟩
    · push_neg at h0
      have hmiss : mapLookup c.clients
          (clientKey c (labelValue meta.labels CustomProjectAliasLabel)) = none := by
        rw [hcl]; rfl
      obtain ⟨e, he⟩ := Option.isSome_iff_exists.mp
        (gptc_unknown_err_isSome env c (labelValue meta.labels CustomProjectAliasLabel) hct)
      rw [get_miss_fail_eq env c meta (labelValue meta.labels CustomProjectAliasLabel) e rfl
        h0.2 hmiss he]
      exact ⟨rfl, rfl⟩

theorem claim_C7_unknown_client_type_witness :
    (getProjectTypedClient testEnv unknownFactory "acme").1
      = (none, some ("unknown client type " ++ unknownFactory.clientType))
    ∧ (get testEnv unknownFactory testMeta).1 = unknownFactory.defaultClient
    ∧ (get testEnv unknownFactory testMeta).2.1 = unknownFactory :=
  ⟨(claim_C7_unknown_client_type testEnv unknownFactory (by decide)).1 "acme" () () rfl rfl,
   (claim_C7_unknown_client_type testEnv unknownFactory (by decide)).2 rfl testMeta⟩

/-- C9: the cache map grows monotonically under `get`: every existing
binding survives every call unchanged, and the state either stays exactly
the same or gains one binding, for a key previously absent, holding the
client of a construction that reported no error. -/
theorem claim_C9_cache_monotone {F Cfg Provider Client : Type} (env : Env F Cfg Provider Client)
    (c : ClientsFactory Client) (meta : ObjectMeta) :
    (∀ k v, mapLookup c.clients k = some v →
      mapLookup ((get env c meta).2.1).clients k = some v)
    ∧ (((get env c meta).2.1).clients = c.clients
       ∨ ∃ a, labelValue meta.labels CustomProjectAliasLabel = a ∧ a ≠ ""
           ∧ mapLookup c.clients (clientKey c a) = none
           ∧ (getProjectTypedClient env c a).1.2 = none
           ∧ ((get env c meta).2.1).clients
               = (clientKey c a, (getProjectTypedClient env c a).1.1) :: c.clients) := by
  by_cases h0 : meta.labels = none ∨ labelValue meta.labels CustomProjectAliasLabel = ""
  · rw [get_default_eq env c meta h0]
    exact ⟨fun k v h => h, Or.inl rfl⟩
  · push_neg at h0
    cases hm : mapLookup c.clients (clientKey c (labelValue meta.labels CustomProjectAliasLabel)) with
    | some v =>
      rw [get_hit_eq env c meta (labelValue meta.labels CustomProjectAliasLabel) v rfl h0.2 hm]
      exact ⟨fun k v h => h, Or.inl rfl⟩
    | none =>
      cases hs : (getProjectTypedClient env c (labelValue meta.labels CustomProjectAliasLabel)).1.2 with
      | some e =>
        rw [get_miss_fail_eq env c meta (labelValue meta.labels CustomProjectAliasLabel) e rfl
          h0.2 hm hs]
        exact ⟨fun k v h => h, Or.inl rfl⟩
      | none =>
        rw [get_miss_succ_eq env c meta (labelValue meta.labels CustomProjectAliasLabel) rfl
          h0.2 hm hs]
        dsimp only
        exact ⟨fun k v h => mapLookup_insert_preserve c.clients _ k v _ hm h,
          Or.inr ⟨labelValue meta.labels CustomProjectAliasLabel, rfl, h0.2, hm, hs, rfl⟩⟩

theorem claim_C9_cache_monotone_witness :
    mapLookup ((get testEnv seededFactory ⟨none⟩).2.1).clients "compute/acme" = some (some 7) :=
  (claim_C9_cache_monotone testEnv seededFactory ⟨none⟩).1 "compute/acme" (some 7) rfl

end Openstack
